import Mathlib

/-!
Shallow embedding of the Rivet UI widget library (Disclosure, Dropdown,
Accordion and the shared Component base) and proofs about its open/close
state machines, event cancellation and keyboard handling.

The embedding translates the JavaScript sources:
  * src/js/components/dropdown.js   (class Dropdown)
  * src/js/components/component.js  (class Component)
  * src/js/components/accordion.js  (class Accordion)
  * the Disclosure class file       (class Disclosure)

DOM state is modelled explicitly: attribute values become record fields,
`dispatchEvent` becomes an environment function `Env` saying for every
custom event whether listeners leave it uncanceled (`true`) or cancel it
(`false`), and attribute mutation becomes functional record update.
Focus calls are collected in a list; a JavaScript TypeError (member access
on `undefined`/`null`) becomes an `errored` flag or an `Except.error`.
-/

namespace Rivet

/-- The custom events this subsystem dispatches (names without the
configured `rvt:` prefix), each carrying its `detail.id` payload. -/
inductive REvent where
  | dropdownOpen (id : String)
  | dropdownClose (id : String)
  | disclosureOpen (id : String)
  | disclosureClose (id : String)
  | accordionOpened (id : String)
  | accordionClosed (id : String)
  deriving DecidableEq, Repr

/-- A cancellation environment: `env e = true` means dispatching `e`
returns `true` (no listener canceled it), mirroring the return value of
`Component.dispatchCustomEvent` / the `dispatchCustomEvent` utility. -/
abbrev Env := REvent → Bool

/-- A target of a `.focus()` call inside a dropdown or disclosure. -/
inductive FocusTarget where
  | menuItem (i : Nat)
  | toggle
  deriving DecidableEq, Repr

/-- Key codes this library switches on (`utilities/keyCodes`). -/
inductive Key where
  | up
  | down
  | home
  | endKey
  | escape
  | tab
  | other
  deriving DecidableEq, Repr

/-! ## Dropdown (dropdown.js) -/

/-- The mutable state of one Dropdown instance together with the
attributes of its toggle and menu elements.

* `toggleDisabled`     : the toggle element has the `disabled` attribute
* `toggleAriaExpanded` : value of the toggle's `aria-expanded` attribute
                         (`none` when the attribute is absent)
* `toggleDataId`       : the toggle's `data-dropdown-toggle` value
* `menuHidden`         : the menu element has the `hidden` attribute
* `menuItemCount`      : number of focusable elements currently inside
                         the menu (recomputed by `_setUpMenu` each time)
* `isOpen`, `activeToggle`, `activeMenu` : the instance fields of the
  same names; the latter two are booleans because, when non-null, they
  always reference `this.toggleElement` / `this.menuElement`. -/
structure DropdownState where
  toggleDisabled : Bool
  toggleAriaExpanded : Option String
  toggleDataId : String
  menuHidden : Bool
  menuItemCount : Nat
  isOpen : Bool
  activeToggle : Bool
  activeMenu : Bool
  deriving DecidableEq, Repr

namespace Dropdown

/-- `Dropdown.open()` (dropdown.js lines 38-64). -/
def «open» (env : Env) (s : DropdownState) : DropdownState × List REvent :=
  if s.toggleDisabled then (s, [])
  else
    let ev := REvent.dropdownOpen s.toggleDataId
    if env ev = false then (s, [ev])
    else
      ({ s with
          isOpen := true
          toggleAriaExpanded := some "true"
          menuHidden := false
          activeToggle := true
          activeMenu := true }, [ev])

/-- `Dropdown.close()` (dropdown.js lines 66-91). -/
def close (env : Env) (s : DropdownState) : DropdownState × List REvent :=
  if s.activeToggle = false then (s, [])
  else
    let ev := REvent.dropdownClose s.toggleDataId
    if env ev = false then (s, [ev])
    else
      ({ s with
          isOpen := false
          toggleAriaExpanded := some "false"
          menuHidden := true
          activeToggle := false
          activeMenu := false }, [ev])

/-- `_setUpMenu(menu).first`: index of the first focusable in the menu,
`none` when the menu holds no focusable (JavaScript `undefined`). -/
def menuFirst (s : DropdownState) : Option Nat :=
  if s.menuItemCount = 0 then none else some 0

/-- `_setUpMenu(menu).last`: index of the last focusable in the menu. -/
def menuLast (s : DropdownState) : Option Nat :=
  if s.menuItemCount = 0 then none else some (s.menuItemCount - 1)

/-- Where a document click landed, relative to one Dropdown instance:
whether `this.menuElement.contains(event.target)` and what
`event.target.closest('[data-dropdown-toggle]')` resolves to
(`none` = no toggle ancestor, `some true` = this instance's toggle,
`some false` = a toggle of some other instance). -/
structure ClickEvent where
  targetInMenu : Bool
  closestToggleIsThis : Option Bool
  deriving DecidableEq, Repr

/-- `Dropdown._handleClick(event)` (dropdown.js lines 116-134). -/
def handleClick (env : Env) (e : ClickEvent) (s : DropdownState) :
    DropdownState × List REvent :=
  if e.targetInMenu then (s, [])
  else if e.closestToggleIsThis = none ∧ s.activeToggle then close env s
  else if e.closestToggleIsThis ≠ some true ∨ s.isOpen then close env s
  else «open» env s

/-- A keydown event as one Dropdown instance observes it:
the key, whether `this.element.contains(event.target)`, whether
`event.target.closest('[data-dropdown]')` is this instance's element,
whether `this.menuElement.contains(event.target)`, the index of the
focusable menu item equal to `event.target` (if any), the shift
modifier and which of this menu's focusables `document.activeElement`
is (if any). -/
structure KeyEvent where
  key : Key
  targetInElement : Bool
  closestDropdownIsThis : Bool
  targetInMenu : Bool
  targetItemIndex : Option Nat
  shiftKey : Bool
  docActiveItem : Option Nat
  deriving DecidableEq, Repr

/-- Result of running `_handleKeydown`: the instance state, the custom
events dispatched, the `.focus()` calls made in order, and whether the
handler threw a TypeError (a `.focus()` on `undefined`). -/
structure KeyResult where
  state : DropdownState
  events : List REvent
  focuses : List FocusTarget
  errored : Bool
  deriving DecidableEq, Repr

/-- `currentMenu.all[i]` for an index that may be out of range
(JavaScript yields `undefined` outside `0 ≤ i < length`). -/
def menuItemAt (s : DropdownState) (i : Nat) : Option Nat :=
  if i < s.menuItemCount then some i else none

/-- The tail of the Down branch of `_handleKeydown` after the
open-or-focus-first step: bail unless the event came from within the
menu, then advance focus to `currentMenu.all[currentIndex + 1]`,
wrapping to the first item past the end. `s1`, `evs` and `fs` carry the
state, dispatches and focus calls of the preceding step. -/
def downWrap (s1 : DropdownState) (evs : List REvent) (fs : List FocusTarget)
    (e : KeyEvent) : KeyResult :=
  if e.targetInMenu = false then ⟨s1, evs, fs, false⟩
  else
    -- currentIndex scan, then currentMenu.all[currentIndex + 1]
    let nextItem : Option Nat :=
      match e.targetItemIndex with
      | some i => menuItemAt s1 (i + 1)
      | none => none
    match nextItem with
    | none =>
      match menuFirst s1 with
      | some j => ⟨s1, evs, fs ++ [FocusTarget.menuItem j], false⟩
      | none => ⟨s1, evs, fs, true⟩
    | some j => ⟨s1, evs, fs ++ [FocusTarget.menuItem j], false⟩

/-- `Dropdown._handleKeydown(event)` (dropdown.js lines 136-259). -/
def handleKeydown (env : Env) (e : KeyEvent) (s : DropdownState) : KeyResult :=
  if e.targetInElement = false then ⟨s, [], [], false⟩
  else if e.closestDropdownIsThis = false then ⟨s, [], [], false⟩
  else
    match e.key with
    | Key.down =>
      -- open if closed, otherwise focus the first menu item; a focus on
      -- an empty open menu throws before the wraparound logic runs
      if s.isOpen = false then
        let r := «open» env s
        downWrap r.1 r.2 [] e
      else
        match menuFirst s with
        | some j => downWrap s [] [FocusTarget.menuItem j] e
        | none => ⟨s, [], [], true⟩
    | Key.up =>
      if e.targetInMenu = false then ⟨s, [], [], false⟩
      else
        -- currentMenu.all[currentIndex - 1]; JavaScript index -1 is undefined
        let previousItem : Option Nat :=
          match e.targetItemIndex with
          | some i => if i = 0 then none else menuItemAt s (i - 1)
          | none => none
        match previousItem with
        | none =>
          match menuLast s with
          | some j => ⟨s, [], [FocusTarget.menuItem j], false⟩
          | none => ⟨s, [], [], true⟩
        | some j => ⟨s, [], [FocusTarget.menuItem j], false⟩
    | Key.escape =>
      if s.activeToggle = false then ⟨s, [], [], false⟩
      else
        let (s1, evs) := close env s
        ⟨{ s1 with activeToggle := false }, evs, [FocusTarget.toggle], false⟩
    | Key.tab =>
      if e.targetInMenu = false then ⟨s, [], [], false⟩
      else
        let onLast : Bool :=
          match menuLast s with
          | some j => e.docActiveItem = some j
          | none => false
        if onLast ∧ e.shiftKey = false then
          let (s1, evs) := close env s
          ⟨s1, evs, [], false⟩
        else ⟨s, [], [], false⟩
    | _ => ⟨s, [], [], false⟩

end Dropdown

/-! ## Disclosure (the Disclosure class file) -/

/-- The mutable state of one Disclosure instance together with the
attributes of its toggle and target elements (same reading as
`DropdownState`; `activeDisclosure` plays the role of `activeMenu`). -/
structure DisclosureState where
  toggleDisabled : Bool
  toggleAriaExpanded : Option String
  toggleDataId : String
  targetHidden : Bool
  isOpen : Bool
  activeToggle : Bool
  activeDisclosure : Bool
  deriving DecidableEq, Repr

namespace Disclosure

/-- `Disclosure.open()` with `_fireOpenEvent()` inlined
(Disclosure class, `open` and `_fireOpenEvent`). -/
def «open» (env : Env) (s : DisclosureState) : DisclosureState × List REvent :=
  if s.toggleDisabled then (s, [])
  else
    let ev := REvent.disclosureOpen s.toggleDataId
    if env ev = false then (s, [ev])
    else
      ({ s with
          isOpen := true
          toggleAriaExpanded := some "true"
          targetHidden := false
          activeToggle := true
          activeDisclosure := true }, [ev])

/-- `Disclosure.close()` with `_fireCloseEvent()` inlined. -/
def close (env : Env) (s : DisclosureState) : DisclosureState × List REvent :=
  if s.activeToggle = false then (s, [])
  else
    let ev := REvent.disclosureClose s.toggleDataId
    if env ev = false then (s, [ev])
    else
      ({ s with
          isOpen := false
          toggleAriaExpanded := some "false"
          targetHidden := true
          activeToggle := false
          activeDisclosure := false }, [ev])

/-- `Disclosure._handleClick(event)`; structurally identical to
`Dropdown._handleClick` with the target element in place of the menu. -/
def handleClick (env : Env) (e : Dropdown.ClickEvent) (s : DisclosureState) :
    DisclosureState × List REvent :=
  if e.targetInMenu then (s, [])
  else if e.closestToggleIsThis = none ∧ s.activeToggle then close env s
  else if e.closestToggleIsThis ≠ some true ∨ s.isOpen then close env s
  else «open» env s

/-- A keydown event as one Disclosure instance observes it, for
`_shouldHandleKeydown`. -/
structure KeyEvent where
  key : Key
  targetInElement : Bool
  closestDisclosureIsThis : Bool
  deriving DecidableEq, Repr

/-- `Disclosure._handleKeyDown(event)`: only the Escape key is handled. -/
def handleKeyDown (env : Env) (e : KeyEvent) (s : DisclosureState) :
    DisclosureState × List REvent × List FocusTarget :=
  if e.targetInElement = false then (s, [], [])
  else if e.closestDisclosureIsThis = false then (s, [], [])
  else
    match e.key with
    | Key.escape =>
      if s.activeToggle = false then (s, [], [])
      else
        let (s1, evs) := close env s
        ({ s1 with activeToggle := false }, evs, [FocusTarget.toggle])
    | _ => (s, [], [])

end Disclosure

/-! ## Component base and the broken member lookups (component.js) -/

/-- The method and static-member names the Disclosure class defines.
Note `_handleKeyDown` (capital `D`): the class never defines a member
named `_handleKeydown`. -/
def disclosureMethods : List String :=
  ["constructor", "init", "_initAttributes", "_initEventNames",
   "_initChildElements", "_initEventListeners", "_initState",
   "_excludeIconsFromFocus", "connected", "disconnected",
   "open", "_fireOpenEvent", "close", "_fireCloseEvent",
   "_handleClick", "_clickOriginatedInOpenDisclosure",
   "_shouldHandleKeydown", "_handleKeyDown"]

/-- The static members the Component class defines (component.js):
none. `dispatchCustomEvent` and `destroy` are instance methods only. -/
def componentStatics : List String := []

/-- JavaScript member access followed by a call (`this.m.bind(this)` or
`C.m(...)`): a TypeError when the member is `undefined`. -/
def jsCallMember (members : List String) (name : String) : Except String Unit :=
  if name ∈ members then Except.ok ()
  else Except.error ("TypeError: " ++ name ++ " is undefined")

/-- `Disclosure._initEventListeners()`: binds `_handleClick` (defined),
then `_handleKeydown` — which the class does not define, so the second
bind throws and initialization aborts. -/
def disclosureInitEventListeners : Except String Unit := do
  let _ ← jsCallMember disclosureMethods "_handleClick"
  let _ ← jsCallMember disclosureMethods "_handleKeydown"
  Except.ok ()

/-- The `Component.bindMethodToDOMElement(...)` calls at the end of
`Accordion init()` (accordion.js lines 67-69): the Component class has
no such static member, so the first call throws. -/
def accordionBindMethods : Except String Unit := do
  let _ ← jsCallMember componentStatics "bindMethodToDOMElement"
  Except.ok ()

/-! ## Accordion (accordion.js) -/

/-- One accordion panel element: its `data-accordion-panel` value,
whether it carries `data-accordion-panel-init`, and its `hidden`
attribute. -/
structure APanel where
  id : String
  initMarker : Bool
  hidden : Bool
  deriving DecidableEq, Repr

/-- One accordion trigger element: its `data-accordion-trigger` value,
its `disabled` attribute and its `aria-expanded` attribute. -/
structure ATrigger where
  id : String
  disabled : Bool
  ariaExpanded : Option String
  deriving DecidableEq, Repr

/-- The state of one Accordion instance after `init()`: the
`data-accordion-open-all` flag, the cached ordered trigger and panel
lists, and `openOnInit` as the index of the panel object it references
(`none` when `initialPanel` stayed `undefined`). -/
structure AccordionState where
  openAllOnInit : Bool
  triggers : List ATrigger
  panels : List APanel
  openOnInit : Option Nat
  deriving DecidableEq, Repr

/-- The markup an Accordion is initialized over. -/
structure AccordionMarkup where
  openAll : Bool
  triggers : List ATrigger
  panels : List APanel
  deriving DecidableEq, Repr

/-- Result of an Accordion operation: the new state, the custom events
dispatched, and whether a TypeError was thrown (an attribute access on
a `null` trigger lookup). -/
structure ARunResult where
  state : AccordionState
  events : List REvent
  errored : Bool
  deriving DecidableEq, Repr

namespace Accordion

/-- `this.element.querySelector('[data-accordion-trigger = "<id>"]')`:
index of the first trigger whose identifier matches, `none` for a
`null` query result. -/
def findTrigger (ts : List ATrigger) (pid : String) : Option Nat :=
  ts.findIdx? (fun t => t.id == pid)

/-- `Accordion.open(panel)` (accordion.js lines 192-214), with `panel`
given as its index in `this.panels`. The call
`Component.dispatchCustomEvent(...)` at line 195 looks up a static
member the Component class does not define (component.js has
`dispatchCustomEvent` as an instance method only), so after the
argument `panel.dataset.accordionPanel` is evaluated the call throws a
TypeError: no event is dispatched and no attribute changes, whatever
the panel or trigger state. When `pi` is out of range,
`panel.dataset` itself throws. The `Except.ok` branch keeps the
translation of lines 203-213, which this source can never reach. -/
def openP (env : Env) (s : AccordionState) (pi : Nat) : ARunResult :=
  match s.panels[pi]? with
  | none => ⟨s, [], true⟩
  | some p =>
    match jsCallMember componentStatics "dispatchCustomEvent" with
    | Except.error _ => ⟨s, [], true⟩
    | Except.ok _ =>
      let ev := REvent.accordionOpened p.id
      if env ev = false then ⟨s, [ev], false⟩
      else
        let s1 := { s with panels := s.panels.set pi { p with hidden := false } }
        match findTrigger s.triggers p.id with
        | none => ⟨s1, [ev], true⟩
        | some ti =>
          ⟨{ s1 with
              triggers := s1.triggers.modify
                (fun t => { t with ariaExpanded := some "true" }) ti },
            [ev], false⟩

/-- `Accordion.close(panel)` (accordion.js lines 216-236). The code has
no already-closed guard, but like `open` it calls the undefined static
`Component.dispatchCustomEvent` (line 219) first, so every `close(panel)`
throws a TypeError before dispatching anything or touching any
attribute — for closed and open panels alike. The `Except.ok` branch
keeps the translation of lines 227-235, unreachable for this source. -/
def closeP (env : Env) (s : AccordionState) (pi : Nat) : ARunResult :=
  match s.panels[pi]? with
  | none => ⟨s, [], true⟩
  | some p =>
    match jsCallMember componentStatics "dispatchCustomEvent" with
    | Except.error _ => ⟨s, [], true⟩
    | Except.ok _ =>
      let ev := REvent.accordionClosed p.id
      if env ev = false then ⟨s, [ev], false⟩
      else
        let s1 := { s with panels := s.panels.set pi { p with hidden := true } }
        match findTrigger s.triggers p.id with
        | none => ⟨s1, [ev], true⟩
        | some ti =>
          ⟨{ s1 with
              triggers := s1.triggers.modify
                (fun t => { t with ariaExpanded := some "false" }) ti },
            [ev], false⟩

/-- The console warning issued when fewer than two triggers exist. -/
def fewTriggersWarning : String :=
  "An accordion should contain *at least two* accordion triggers"

/-- The `initialPanel` accumulation of the `forEach` in `Accordion
init()`: `initialPanel = panel` is executed for every marked panel in
order, so the variable ends holding the last marked panel. `i` is the
index of the first panel of `ps` in the whole list, `acc` the value of
`initialPanel` so far. -/
def lastMarkedAux : List APanel → Nat → Option Nat → Option Nat
  | [], _, acc => acc
  | p :: ps, i, acc =>
      lastMarkedAux ps (i + 1) (if p.initMarker then some i else acc)

/-- Result of running `Accordion init()`: the instance fields and DOM
attributes as assigned before the throw, the console warnings, and
whether init threw. -/
structure AInitResult where
  state : AccordionState
  warnings : List String
  errored : Bool
  deriving DecidableEq, Repr

/-- `Accordion init()` (accordion.js lines 16-73): cache the lists, warn
on fewer than two triggers, warn `Caught` on more than one
`data-accordion-panel-init` panel, hide every unmarked panel (marked
panels keep the `hidden` attribute the markup authored), and let
`initialPanel` end up as the last marked panel (it is reassigned on
each marked panel the `forEach` visits). The `try` block cannot throw,
so the `catch` branch is dead. Then line 68 calls
`Component.bindMethodToDOMElement`, a static member the Component class
does not define, so init always throws a TypeError at that point: the
state assigned so far stands, but initialization aborts — `connected()`
and with it `_openOnInit()` never run. -/
def init (m : AccordionMarkup) : AInitResult :=
  let warnsA := if m.triggers.length < 2 then [fewTriggersWarning] else []
  let initializedPanels := m.panels.filter (fun p => p.initMarker)
  let warnsB := warnsA ++ (if initializedPanels.length > 1 then ["Caught"] else [])
  let panels1 := m.panels.map
    (fun p => if p.initMarker then p else { p with hidden := true })
  let initialPanel := lastMarkedAux m.panels 0 none
  let st : AccordionState :=
    { openAllOnInit := m.openAll
      triggers := m.triggers
      panels := panels1
      openOnInit := initialPanel }
  match jsCallMember componentStatics "bindMethodToDOMElement" with
  | Except.error _ => ⟨st, warnsB, true⟩
  | Except.ok _ => ⟨st, warnsB, false⟩

/-- The non-`openOnInit` branch body of `_openOnInit`'s `forEach`:
`this.panels[index].setAttribute('hidden', '')`, then the trigger lookup
by the panel's identifier, then `trigger.setAttribute('aria-expanded',
'false')` (TypeError when the lookup returned `null`). -/
def hideStep (s : AccordionState) (pi : Nat) : AccordionState × Bool :=
  match s.panels[pi]? with
  | none => (s, true)
  | some p =>
    let s1 := { s with panels := s.panels.set pi { p with hidden := true } }
    match findTrigger s1.triggers p.id with
    | none => (s1, true)
    | some ti =>
      ({ s1 with
          triggers := s1.triggers.modify
            (fun t => { t with ariaExpanded := some "false" }) ti },
        false)

/-- `Accordion._openOnInit()` (accordion.js lines 92-115), run from
`connected()`. A thrown TypeError aborts the `forEach`, so iteration
short-circuits once `errored` is set. For this source the method is
doubly dead: init aborts before `connected()` ever runs, and were it
called directly, every `this.open(panel)` it makes throws at the
undefined static `Component.dispatchCustomEvent` — only the pure
attribute-setting `hideStep` iterations can complete. -/
def openOnInitRun (env : Env) (s : AccordionState) : ARunResult :=
  if s.openAllOnInit = true then
    (List.range s.panels.length).foldl
      (fun acc i =>
        if acc.errored then acc
        else
          let r := openP env acc.state i
          ⟨r.state, acc.events ++ r.events, r.errored⟩)
      ⟨s, [], false⟩
  else
    (List.range s.panels.length).foldl
      (fun acc i =>
        if acc.errored then acc
        else if s.openOnInit = some i then
          let r := openP env acc.state i
          ⟨r.state, acc.events ++ r.events, r.errored⟩
        else
          let (s1, err) := hideStep acc.state i
          ⟨s1, acc.events, err⟩)
      ⟨s, [], false⟩

/-- A keydown event as the Accordion's delegated handler observes it:
the key, whether `event.target.closest('[data-accordion]')` is non-null,
and `this.triggers.indexOf(event.target.closest(triggerSelector))`
(`none` when there is no closest trigger; the index is an integer
because `indexOf` yields `-1` for a trigger missing from the cached
list). -/
structure AKeyEvent where
  key : Key
  inAccordion : Bool
  triggerIdx : Option Int
  deriving DecidableEq, Repr

/-- JavaScript array indexing with an integer index: `undefined` (i.e.
`none`) outside `0 ≤ i < length`. -/
def jsGet (l : List ATrigger) (i : Int) : Option ATrigger :=
  if i < 0 then none else l[i.toNat]?

/-- `Accordion._handleKeydown(event)` (accordion.js lines 138-190).
Only `.focus()` calls happen; the result is the unchanged state, the
index of the trigger focused (if any), and the TypeError flag for a
`.focus()` on `undefined` (empty trigger list). -/
def handleKeydown (s : AccordionState) (e : AKeyEvent) :
    AccordionState × Option Nat × Bool :=
  if e.key = Key.up ∨ e.key = Key.down ∨ e.key = Key.endKey ∨ e.key = Key.home then
    if e.inAccordion = false then (s, none, false)
    else
      match e.triggerIdx with
      | none => (s, none, false)
      | some i =>
        let n := s.triggers.length
        match e.key with
        | Key.up =>
          match jsGet s.triggers (i - 1) with
          | none => if n = 0 then (s, none, true) else (s, some (n - 1), false)
          | some _ => (s, some (i - 1).toNat, false)
        | Key.down =>
          match jsGet s.triggers (i + 1) with
          | none => if n = 0 then (s, none, true) else (s, some 0, false)
          | some _ => (s, some (i + 1).toNat, false)
        | Key.endKey => if n = 0 then (s, none, true) else (s, some (n - 1), false)
        | Key.home => if n = 0 then (s, none, true) else (s, some 0, false)
        | _ => (s, none, false)
  else (s, none, false)

end Accordion

/-! ## Invariants and example instances -/

/-- The spec's synchronization invariant for a Dropdown instance:
`isOpen` iff the menu lacks `hidden` iff the toggle's `aria-expanded`
is `"true"`. -/
def DropdownState.sync (s : DropdownState) : Prop :=
  (s.isOpen = true ↔ s.menuHidden = false) ∧
  (s.isOpen = true ↔ s.toggleAriaExpanded = some "true")

instance (s : DropdownState) : Decidable s.sync := by
  unfold DropdownState.sync; infer_instance

/-- The spec's synchronization invariant for a Disclosure instance. -/
def DisclosureState.sync (s : DisclosureState) : Prop :=
  (s.isOpen = true ↔ s.targetHidden = false) ∧
  (s.isOpen = true ↔ s.toggleAriaExpanded = some "true")

instance (s : DisclosureState) : Decidable s.sync := by
  unfold DisclosureState.sync; infer_instance

/-- An environment whose listeners never cancel any event. -/
def envAllow : Env := fun _ => true

/-- An environment whose listeners cancel every event. -/
def envCancel : Env := fun _ => false

/-- A freshly constructed (closed) Dropdown over well-formed markup,
menu holding three focusable items. -/
def dropdownClosedEx : DropdownState :=
  { toggleDisabled := false
    toggleAriaExpanded := some "false"
    toggleDataId := "nav"
    menuHidden := true
    menuItemCount := 3
    isOpen := false
    activeToggle := false
    activeMenu := false }

/-- The same Dropdown after a successful `open()`. -/
def dropdownOpenEx : DropdownState :=
  { toggleDisabled := false
    toggleAriaExpanded := some "true"
    toggleDataId := "nav"
    menuHidden := false
    menuItemCount := 3
    isOpen := true
    activeToggle := true
    activeMenu := true }

/-- A Dropdown whose toggle carries the `disabled` attribute. -/
def dropdownDisabledEx : DropdownState :=
  { dropdownClosedEx with toggleDisabled := true }

/-- A freshly constructed (closed) Disclosure over well-formed markup. -/
def disclosureClosedEx : DisclosureState :=
  { toggleDisabled := false
    toggleAriaExpanded := some "false"
    toggleDataId := "details"
    targetHidden := true
    isOpen := false
    activeToggle := false
    activeDisclosure := false }

/-- A Disclosure whose toggle carries the `disabled` attribute. -/
def disclosureDisabledEx : DisclosureState :=
  { disclosureClosedEx with toggleDisabled := true }

/-- A keydown event delivered inside this dropdown's menu, on the
focusable item of index `i`. -/
def Dropdown.menuKeyEvent (k : Key) (i : Nat) : Dropdown.KeyEvent :=
  { key := k
    targetInElement := true
    closestDropdownIsThis := true
    targetInMenu := true
    targetItemIndex := some i
    shiftKey := false
    docActiveItem := none }

/-- An Escape keydown delivered inside this dropdown (on the toggle). -/
def Dropdown.escapeKeyEvent : Dropdown.KeyEvent :=
  { key := Key.escape
    targetInElement := true
    closestDropdownIsThis := true
    targetInMenu := false
    targetItemIndex := none
    shiftKey := false
    docActiveItem := none }

/-- An Accordion with two triggers and two panels that both carry the
`data-accordion-panel-init` marker (the anomalous markup). -/
def accordionTwoInitMarkup : AccordionMarkup :=
  { openAll := false
    triggers := [⟨"one", false, none⟩, ⟨"two", false, none⟩]
    panels := [⟨"one", true, false⟩, ⟨"two", true, false⟩] }

/-- An Accordion whose first panel is closed (hidden, trigger collapsed)
and whose second panel is open. -/
def accordionClosedFirstEx : AccordionState :=
  { openAllOnInit := false
    triggers := [⟨"a", false, some "false"⟩, ⟨"b", false, some "true"⟩]
    panels := [⟨"a", false, true⟩, ⟨"b", false, false⟩]
    openOnInit := none }

/-- An Accordion whose single trigger carries the `disabled` attribute
and whose panel is closed. -/
def accordionDisabledEx : AccordionState :=
  { openAllOnInit := false
    triggers := [⟨"a", true, some "false"⟩]
    panels := [⟨"a", false, true⟩]
    openOnInit := none }

/-- An Accordion with three triggers, for the keyboard claims. -/
def accordionThreeEx : AccordionState :=
  { openAllOnInit := false
    triggers := [⟨"1", false, some "false"⟩, ⟨"2", false, some "false"⟩,
                 ⟨"3", false, some "false"⟩]
    panels := [⟨"1", false, true⟩, ⟨"2", false, true⟩, ⟨"3", false, true⟩]
    openOnInit := none }

/-- An accordion keydown event on trigger index `i` (as `indexOf` sees
it), inside the accordion root. -/
def Accordion.keyEventOn (k : Key) (i : Int) : Accordion.AKeyEvent :=
  { key := k, inAccordion := true, triggerIdx := some i }

/-! ## Synchronization lemmas (Dropdown) -/

theorem dropdown_open_sync (env : Env) (s : DropdownState) (h : s.sync) :
    ((Dropdown.open env s).1).sync := by
  unfold Dropdown.open
  dsimp only
  split
  · exact h
  · split
    · exact h
    · exact ⟨by simp, by simp⟩

theorem dropdown_close_sync (env : Env) (s : DropdownState) (h : s.sync) :
    ((Dropdown.close env s).1).sync := by
  unfold Dropdown.close
  dsimp only
  split
  · exact h
  · split
    · exact h
    · exact ⟨by simp, by simp⟩

theorem dropdown_handleClick_sync (env : Env) (e : Dropdown.ClickEvent)
    (s : DropdownState) (h : s.sync) :
    ((Dropdown.handleClick env e s).1).sync := by
  unfold Dropdown.handleClick
  split
  · exact h
  · split
    · exact dropdown_close_sync env s h
    · split
      · exact dropdown_close_sync env s h
      · exact dropdown_open_sync env s h

theorem dropdown_downWrap_state (s1 : DropdownState) (evs : List REvent)
    (fs : List FocusTarget) (e : Dropdown.KeyEvent) :
    (Dropdown.downWrap s1 evs fs e).state = s1 := by
  unfold Dropdown.downWrap
  dsimp only
  repeat' split
  all_goals rfl

theorem dropdown_handleKeydown_sync (env : Env) (e : Dropdown.KeyEvent)
    (s : DropdownState) (h : s.sync) :
    ((Dropdown.handleKeydown env e s).state).sync := by
  unfold Dropdown.handleKeydown
  dsimp only
  split
  · exact h
  · split
    · exact h
    · split
      · split
        · rw [dropdown_downWrap_state]
          exact dropdown_open_sync env s h
        · split
          · rw [dropdown_downWrap_state]; exact h
          · exact h
      · repeat' split
        all_goals exact h
      · split
        · exact h
        · have hc := dropdown_close_sync env s h
          exact ⟨hc.1, hc.2⟩
      · split
        · exact h
        · split
          · exact dropdown_close_sync env s h
          · exact h
      · exact h

/-! ## Synchronization lemmas (Disclosure) -/

theorem disclosure_open_sync (env : Env) (s : DisclosureState) (h : s.sync) :
    ((Disclosure.open env s).1).sync := by
  unfold Disclosure.open
  dsimp only
  split
  · exact h
  · split
    · exact h
    · exact ⟨by simp, by simp⟩

theorem disclosure_close_sync (env : Env) (s : DisclosureState) (h : s.sync) :
    ((Disclosure.close env s).1).sync := by
  unfold Disclosure.close
  dsimp only
  split
  · exact h
  · split
    · exact h
    · exact ⟨by simp, by simp⟩

theorem disclosure_handleClick_sync (env : Env) (e : Dropdown.ClickEvent)
    (s : DisclosureState) (h : s.sync) :
    ((Disclosure.handleClick env e s).1).sync := by
  unfold Disclosure.handleClick
  split
  · exact h
  · split
    · exact disclosure_close_sync env s h
    · split
      · exact disclosure_close_sync env s h
      · exact disclosure_open_sync env s h

theorem disclosure_handleKeyDown_sync (env : Env) (e : Disclosure.KeyEvent)
    (s : DisclosureState) (h : s.sync) :
    ((Disclosure.handleKeyDown env e s).1).sync := by
  unfold Disclosure.handleKeyDown
  dsimp only
  split
  · exact h
  · split
    · exact h
    · split
      · split
        · exact h
        · have hc := disclosure_close_sync env s h
          exact ⟨hc.1, hc.2⟩
      · exact h

/-! ## Accordion evaluation lemmas -/

theorem accordion_openP_eq (env : Env) (s : AccordionState) (pi : Nat) :
    Accordion.openP env s pi = ⟨s, [], true⟩ := by
  unfold Accordion.openP
  cases s.panels[pi]? <;> rfl

theorem accordion_closeP_eq (env : Env) (s : AccordionState) (pi : Nat) :
    Accordion.closeP env s pi = ⟨s, [], true⟩ := by
  unfold Accordion.closeP
  cases s.panels[pi]? <;> rfl

theorem accordion_init_eq (m : AccordionMarkup) :
    Accordion.init m =
      ⟨{ openAllOnInit := m.openAll
         triggers := m.triggers
         panels := m.panels.map
           (fun p => if p.initMarker then p else { p with hidden := true })
         openOnInit := Accordion.lastMarkedAux m.panels 0 none },
        (if m.triggers.length < 2 then [Accordion.fewTriggersWarning] else []) ++
          (if (m.panels.filter (fun p => p.initMarker)).length > 1
            then ["Caught"] else []),
        true⟩ := rfl

/-! ## Claim theorems -/

/-- C1: for Disclosure and Dropdown, the synchronization invariant
(`isOpen` iff target/menu lacks `hidden` iff `aria-expanded = "true"`)
is preserved by `open`, `close` and both delegated handlers; moreover a
successful `open()` leaves `aria-expanded = "true"` with `hidden`
absent, and a successful `close()` leaves `aria-expanded = "false"`
with `hidden` present, so the two attributes are never out of sync. -/
theorem open_close_keeps_aria_hidden_in_sync
    (env : Env) (sd : DropdownState) (sl : DisclosureState)
    (dce : Dropdown.ClickEvent) (dke : Dropdown.KeyEvent)
    (lce : Dropdown.ClickEvent) (lke : Disclosure.KeyEvent)
    (hd : sd.sync) (hl : sl.sync) :
    ((Dropdown.open env sd).1).sync ∧
    ((Dropdown.close env sd).1).sync ∧
    ((Dropdown.handleClick env dce sd).1).sync ∧
    ((Dropdown.handleKeydown env dke sd).state).sync ∧
    ((Disclosure.open env sl).1).sync ∧
    ((Disclosure.close env sl).1).sync ∧
    ((Disclosure.handleClick env lce sl).1).sync ∧
    ((Disclosure.handleKeyDown env lke sl).1).sync ∧
    (sd.toggleDisabled = false → env (REvent.dropdownOpen sd.toggleDataId) = true →
      (Dropdown.open env sd).1.isOpen = true ∧
      (Dropdown.open env sd).1.toggleAriaExpanded = some "true" ∧
      (Dropdown.open env sd).1.menuHidden = false) ∧
    (sd.activeToggle = true → env (REvent.dropdownClose sd.toggleDataId) = true →
      (Dropdown.close env sd).1.isOpen = false ∧
      (Dropdown.close env sd).1.toggleAriaExpanded = some "false" ∧
      (Dropdown.close env sd).1.menuHidden = true) ∧
    (sl.toggleDisabled = false → env (REvent.disclosureOpen sl.toggleDataId) = true →
      (Disclosure.open env sl).1.isOpen = true ∧
      (Disclosure.open env sl).1.toggleAriaExpanded = some "true" ∧
      (Disclosure.open env sl).1.targetHidden = false) ∧
    (sl.activeToggle = true → env (REvent.disclosureClose sl.toggleDataId) = true →
      (Disclosure.close env sl).1.isOpen = false ∧
      (Disclosure.close env sl).1.toggleAriaExpanded = some "false" ∧
      (Disclosure.close env sl).1.targetHidden = true) := by
  refine ⟨dropdown_open_sync env sd hd, dropdown_close_sync env sd hd,
          dropdown_handleClick_sync env dce sd hd,
          dropdown_handleKeydown_sync env dke sd hd,
          disclosure_open_sync env sl hl, disclosure_close_sync env sl hl,
          disclosure_handleClick_sync env lce sl hl,
          disclosure_handleKeyDown_sync env lke sl hl,
          ?_, ?_, ?_, ?_⟩
  · intro h1 h2
    unfold Dropdown.open
    simp [h1, h2]
  · intro h1 h2
    unfold Dropdown.close
    simp [h1, h2]
  · intro h1 h2
    unfold Disclosure.open
    simp [h1, h2]
  · intro h1 h2
    unfold Disclosure.close
    simp [h1, h2]

/-- C1 witness: the invariant theorem applied to a concrete closed
dropdown and disclosure. -/
theorem open_close_keeps_aria_hidden_in_sync_witness :
    ((Dropdown.open envAllow dropdownClosedEx).1).sync ∧
    ((Disclosure.close envAllow disclosureClosedEx).1).sync :=
  have h := open_close_keeps_aria_hidden_in_sync envAllow dropdownClosedEx
    disclosureClosedEx ⟨false, none⟩ Dropdown.escapeKeyEvent ⟨false, none⟩
    ⟨Key.escape, true, true⟩ (by decide) (by decide)
  ⟨h.1, h.2.2.2.2.2.1⟩

/-- C2: the claim says no widget operation ever throws, but the code
does: `Disclosure._initEventListeners` binds the undefined member
`_handleKeydown` (the method is spelled `_handleKeyDown`), and
`Accordion init()` calls the undefined static
`Component.bindMethodToDOMElement`, so both initializations abort with
a TypeError. -/
theorem widget_init_throws_typeError :
    disclosureInitEventListeners =
      Except.error "TypeError: _handleKeydown is undefined" ∧
    accordionBindMethods =
      Except.error "TypeError: bindMethodToDOMElement is undefined" :=
  ⟨rfl, rfl⟩

/-- C3: when a listener cancels the dispatched open/close custom event,
the `open()`/`close()` call of every widget returns with the instance
state (state variables and all attributes) exactly as before. For
Dropdown and Disclosure this is the cancellation guard; Accordion's
`open`/`close` never even reach a dispatch (they throw a TypeError at
the undefined static `Component.dispatchCustomEvent`), so their state
is unchanged and their event list empty unconditionally — the claimed
conditional holds a fortiori. -/
theorem canceled_event_leaves_state_unchanged
    (env : Env) (sd : DropdownState) (sl : DisclosureState)
    (sa : AccordionState) (pi : Nat) :
    (env (REvent.dropdownOpen sd.toggleDataId) = false →
       (Dropdown.open env sd).1 = sd) ∧
    (env (REvent.dropdownClose sd.toggleDataId) = false →
       (Dropdown.close env sd).1 = sd) ∧
    (env (REvent.disclosureOpen sl.toggleDataId) = false →
       (Disclosure.open env sl).1 = sl) ∧
    (env (REvent.disclosureClose sl.toggleDataId) = false →
       (Disclosure.close env sl).1 = sl) ∧
    ((Accordion.openP env sa pi).state = sa ∧
       (Accordion.openP env sa pi).events = []) ∧
    ((Accordion.closeP env sa pi).state = sa ∧
       (Accordion.closeP env sa pi).events = []) := by
  refine ⟨?_, ?_, ?_, ?_, ?_, ?_⟩
  · intro h; unfold Dropdown.open; simp [h]
    split <;> rfl
  · intro h; unfold Dropdown.close; simp [h]
    split <;> rfl
  · intro h; unfold Disclosure.open; simp [h]
    split <;> rfl
  · intro h; unfold Disclosure.close; simp [h]
    split <;> rfl
  · rw [accordion_openP_eq]; exact ⟨rfl, rfl⟩
  · rw [accordion_closeP_eq]; exact ⟨rfl, rfl⟩

/-- C3 witness: a canceling listener leaves a concrete dropdown and a
concrete accordion untouched. -/
theorem canceled_event_leaves_state_unchanged_witness :
    (Dropdown.open envCancel dropdownClosedEx).1 = dropdownClosedEx ∧
    (Accordion.closeP envCancel accordionClosedFirstEx 1).state =
      accordionClosedFirstEx :=
  have h := canceled_event_leaves_state_unchanged envCancel dropdownClosedEx
    disclosureClosedEx accordionClosedFirstEx 1
  ⟨h.1 rfl, h.2.2.2.2.2.1⟩

/-- C4: `close()` on a Disclosure or Dropdown with no active toggle
dispatches nothing and changes nothing. -/
theorem close_without_active_toggle_is_noop
    (env : Env) (sd : DropdownState) (sl : DisclosureState)
    (hd : sd.activeToggle = false) (hl : sl.activeToggle = false) :
    Dropdown.close env sd = (sd, []) ∧ Disclosure.close env sl = (sl, []) := by
  constructor
  · unfold Dropdown.close; simp [hd]
  · unfold Disclosure.close; simp [hl]

/-- C4 witness: redundant `close()` on concrete closed instances. -/
theorem close_without_active_toggle_is_noop_witness :
    Dropdown.close envAllow dropdownClosedEx = (dropdownClosedEx, []) ∧
    Disclosure.close envAllow disclosureClosedEx = (disclosureClosedEx, []) :=
  close_without_active_toggle_is_noop envAllow dropdownClosedEx
    disclosureClosedEx rfl rfl

/-- C7: `open()` on a widget whose toggle is `disabled` dispatches no
event and changes no state. Dropdown and Disclosure enforce this with
an explicit guard; Accordion's `open(panel)` has no guard but still
satisfies the claim, because the call throws a TypeError at the
undefined static `Component.dispatchCustomEvent` before dispatching or
mutating anything — for a disabled trigger (as for any other). -/
theorem disabled_toggle_open_is_noop
    (env : Env) (sd : DropdownState) (sl : DisclosureState)
    (sa : AccordionState) (pi : Nat)
    (hd : sd.toggleDisabled = true) (hl : sl.toggleDisabled = true) :
    Dropdown.open env sd = (sd, []) ∧ Disclosure.open env sl = (sl, []) ∧
    (Accordion.openP env sa pi).events = [] ∧
    (Accordion.openP env sa pi).state = sa := by
  refine ⟨?_, ?_, ?_, ?_⟩
  · unfold Dropdown.open; simp [hd]
  · unfold Disclosure.open; simp [hl]
  · rw [accordion_openP_eq]
  · rw [accordion_openP_eq]

/-- C7 witness: concrete disabled dropdown and disclosure, and an
accordion whose only trigger is disabled. -/
theorem disabled_toggle_open_is_noop_witness :
    Dropdown.open envAllow dropdownDisabledEx = (dropdownDisabledEx, []) ∧
    (Accordion.openP envAllow accordionDisabledEx 0).events = [] ∧
    (Accordion.openP envAllow accordionDisabledEx 0).state =
      accordionDisabledEx :=
  have h := disabled_toggle_open_is_noop envAllow dropdownDisabledEx
    disclosureDisabledEx accordionDisabledEx 0 rfl rfl
  ⟨h.1, h.2.2.1, h.2.2.2⟩

/-- C8: in an open Dropdown with `n ≥ 1` focusable menu items, Down on
the last item ends with focus on the first item, and Up on the first
item ends with focus on the last item. -/
theorem dropdown_menu_focus_wraps
    (env : Env) (s : DropdownState) (n : Nat)
    (hopen : s.isOpen = true) (hcount : s.menuItemCount = n) (hn : 1 ≤ n) :
    (Dropdown.handleKeydown env (Dropdown.menuKeyEvent Key.down (n - 1))
        s).focuses.getLast? = some (FocusTarget.menuItem 0) ∧
    (Dropdown.handleKeydown env (Dropdown.menuKeyEvent Key.up 0)
        s).focuses.getLast? = some (FocusTarget.menuItem (n - 1)) := by
  subst hcount
  constructor
  · unfold Dropdown.handleKeydown Dropdown.menuKeyEvent
    simp [hopen, Dropdown.menuFirst, Dropdown.downWrap, Dropdown.menuItemAt,
      Nat.pos_iff_ne_zero.mp hn, Nat.sub_add_cancel hn]
  · unfold Dropdown.handleKeydown Dropdown.menuKeyEvent
    simp [Dropdown.menuLast, Nat.pos_iff_ne_zero.mp hn]

/-- C8 witness: wraparound on a concrete three-item open dropdown. -/
theorem dropdown_menu_focus_wraps_witness :
    (Dropdown.handleKeydown envAllow (Dropdown.menuKeyEvent Key.down 2)
        dropdownOpenEx).focuses.getLast? = some (FocusTarget.menuItem 0) ∧
    (Dropdown.handleKeydown envAllow (Dropdown.menuKeyEvent Key.up 0)
        dropdownOpenEx).focuses.getLast? = some (FocusTarget.menuItem 2) :=
  dropdown_menu_focus_wraps envAllow dropdownOpenEx 3 rfl rfl (by decide)

/-- C9: Accordion keydown with `n ≥ 1` triggers: Home focuses the first
trigger and End the last from any trigger, Down from the last wraps to
the first, Up from the first wraps to the last, and no keydown event
ever changes the accordion state (panels' `hidden`, triggers'
`aria-expanded`). -/
theorem accordion_keydown_focus_only
    (s : AccordionState) (n : Nat)
    (hn : s.triggers.length = n) (h1 : 1 ≤ n) :
    (∀ i : Nat, i < n →
       Accordion.handleKeydown s (Accordion.keyEventOn Key.home i) =
         (s, some 0, false)) ∧
    (∀ i : Nat, i < n →
       Accordion.handleKeydown s (Accordion.keyEventOn Key.endKey i) =
         (s, some (n - 1), false)) ∧
    (Accordion.handleKeydown s (Accordion.keyEventOn Key.down ((n : Int) - 1)) =
       (s, some 0, false)) ∧
    (Accordion.handleKeydown s (Accordion.keyEventOn Key.up 0) =
       (s, some (n - 1), false)) ∧
    (∀ e : Accordion.AKeyEvent, (Accordion.handleKeydown s e).1 = s) := by
  subst hn
  have hne : s.triggers.length ≠ 0 := by omega
  refine ⟨?_, ?_, ?_, ?_, ?_⟩
  · intro i hi
    simp [Accordion.handleKeydown, Accordion.keyEventOn, hne]
  · intro i hi
    simp [Accordion.handleKeydown, Accordion.keyEventOn, hne]
  · have ht : ((s.triggers.length : Int) - 1 + 1).toNat = s.triggers.length := by
      omega
    have hlt : ¬ ((s.triggers.length : Int) - 1 + 1 < 0) := by omega
    simp [Accordion.handleKeydown, Accordion.keyEventOn, Accordion.jsGet,
      hlt, ht, List.getElem?_eq_none (Nat.le_refl _), hne]
  · simp [Accordion.handleKeydown, Accordion.keyEventOn, Accordion.jsGet, hne]
  · intro e
    unfold Accordion.handleKeydown
    dsimp only
    repeat' split
    all_goals rfl

/-- C9 witness: Home and Up-wraparound on a concrete three-trigger
accordion. -/
theorem accordion_keydown_focus_only_witness :
    Accordion.handleKeydown accordionThreeEx (Accordion.keyEventOn Key.home 1) =
      (accordionThreeEx, some 0, false) ∧
    Accordion.handleKeydown accordionThreeEx (Accordion.keyEventOn Key.up 0) =
      (accordionThreeEx, some 2, false) :=
  have h := accordion_keydown_focus_only accordionThreeEx 3 rfl (by decide)
  ⟨h.1 1 (by decide), h.2.2.2.1⟩

/-- C10: if the Escape branch of the dropdown keydown handler runs on an
open dropdown and a listener cancels `dropdownClose`, the handler still
nulls `activeToggle` while `aria-expanded` stays `"true"` and the menu
stays unhidden; every later `close()` then returns immediately with no
dispatch, so the visibly open menu can no longer be closed via
`close()`. -/
theorem escape_canceled_close_strands_open_menu
    (env : Env) (s : DropdownState) (e : Dropdown.KeyEvent)
    (hkey : e.key = Key.escape) (hin : e.targetInElement = true)
    (hthis : e.closestDropdownIsThis = true)
    (hact : s.activeToggle = true) (hopen : s.isOpen = true)
    (haria : s.toggleAriaExpanded = some "true") (hhid : s.menuHidden = false)
    (hcancel : env (REvent.dropdownClose s.toggleDataId) = false) :
    (Dropdown.handleKeydown env e s).events =
      [REvent.dropdownClose s.toggleDataId] ∧
    (Dropdown.handleKeydown env e s).state.activeToggle = false ∧
    (Dropdown.handleKeydown env e s).state.isOpen = true ∧
    (Dropdown.handleKeydown env e s).state.toggleAriaExpanded = some "true" ∧
    (Dropdown.handleKeydown env e s).state.menuHidden = false ∧
    (∀ env2 : Env,
       Dropdown.close env2 (Dropdown.handleKeydown env e s).state =
         ((Dropdown.handleKeydown env e s).state, [])) := by
  have hres : Dropdown.handleKeydown env e s =
      ⟨{ s with activeToggle := false },
        [REvent.dropdownClose s.toggleDataId], [FocusTarget.toggle], false⟩ := by
    unfold Dropdown.handleKeydown
    simp [hin, hthis, hkey, hact]
    unfold Dropdown.close
    simp [hact, hcancel]
  rw [hres]
  refine ⟨rfl, rfl, hopen, haria, hhid, ?_⟩
  intro env2
  unfold Dropdown.close
  simp

/-- C10 witness: the stuck-open state on a concrete open dropdown whose
close event is canceled. -/
theorem escape_canceled_close_strands_open_menu_witness :
    (Dropdown.handleKeydown envCancel Dropdown.escapeKeyEvent
        dropdownOpenEx).state.activeToggle = false ∧
    (∀ env2 : Env,
       Dropdown.close env2
           (Dropdown.handleKeydown envCancel Dropdown.escapeKeyEvent
             dropdownOpenEx).state =
         ((Dropdown.handleKeydown envCancel Dropdown.escapeKeyEvent
             dropdownOpenEx).state, [])) :=
  have h := escape_canceled_close_strands_open_menu envCancel dropdownOpenEx
    Dropdown.escapeKeyEvent rfl rfl rfl rfl rfl rfl rfl rfl
  ⟨h.2.1, h.2.2.2.2.2⟩

/-- C5 counterexample: `Accordion.close(panel)` on a panel that already
has the `hidden` attribute is not a deliberate no-op following the
Disclosure/Dropdown contract: where `Dropdown.close` on an inactive
widget returns normally as `(s, [])`, the accordion call throws a
TypeError (at the undefined static `Component.dispatchCustomEvent`)
instead of returning — there is no already-closed guard at all. -/
theorem accordion_close_hidden_panel_throws :
    (accordionClosedFirstEx.panels[0]?).map APanel.hidden = some true ∧
    (Accordion.closeP envAllow accordionClosedFirstEx 0).errored = true ∧
    (Accordion.closeP envAllow accordionClosedFirstEx 0).events = [] ∧
    Dropdown.close envAllow dropdownClosedEx = (dropdownClosedEx, []) := by
  refine ⟨rfl, ?_, ?_, ?_⟩ <;> decide

/-- C5 amended: `close(panel)` on an already-closed panel dispatches no
`accordionClosed` event and changes no attribute — but not through an
idempotence guard like Disclosure/Dropdown: the call always throws a
TypeError at the undefined static `Component.dispatchCustomEvent`
before any dispatch (the code itself has no already-closed guard, and
open panels get the identical throw). -/
theorem accordion_close_hidden_panel_no_dispatch
    (env : Env) (s : AccordionState) (pi : Nat) (p : APanel)
    (_hp : s.panels[pi]? = some p) (_hph : p.hidden = true) :
    (Accordion.closeP env s pi).events = [] ∧
    (Accordion.closeP env s pi).state = s ∧
    (Accordion.closeP env s pi).errored = true := by
  rw [accordion_closeP_eq]
  exact ⟨rfl, rfl, rfl⟩

/-- C5 witness: redundant close on a concrete hidden panel. -/
theorem accordion_close_hidden_panel_no_dispatch_witness :
    (Accordion.closeP envAllow accordionClosedFirstEx 0).events = [] ∧
    (Accordion.closeP envAllow accordionClosedFirstEx 0).state =
      accordionClosedFirstEx :=
  have h := accordion_close_hidden_panel_no_dispatch envAllow
    accordionClosedFirstEx 0 ⟨"a", false, true⟩ rfl rfl
  ⟨h.1, h.2.1⟩

theorem lastMarkedAux_eq_some (ps : List APanel) :
    ∀ (i : Nat) (acc : Option Nat) (k : Nat),
      Accordion.lastMarkedAux ps i acc = some k →
      (acc = some k ∧ ∀ (e : Nat) (q : APanel), ps[e]? = some q → q.initMarker = false) ∨
      (∃ d p, ps[d]? = some p ∧ p.initMarker = true ∧ k = i + d ∧
         ∀ (e : Nat) (q : APanel), d < e → ps[e]? = some q → q.initMarker = false) := by
  induction ps with
  | nil =>
    intro i acc k h
    left
    refine ⟨h, ?_⟩
    intro e q hq
    simp at hq
  | cons p ps ih =>
    intro i acc k h
    rw [Accordion.lastMarkedAux] at h
    rcases ih (i + 1) (if p.initMarker then some i else acc) k h with
      ⟨hacc, hall⟩ | ⟨d, q, hget, hmark, hk, hlater⟩
    · by_cases hm : p.initMarker = true
      · right
        have hik : i = k := by simpa [hm] using hacc
        refine ⟨0, p, by simp, hm, by omega, ?_⟩
        intro e r hgt hr
        cases e with
        | zero => omega
        | succ e2 =>
          exact hall e2 r (by simpa using hr)
      · left
        refine ⟨by simpa [hm] using hacc, ?_⟩
        intro e r hr
        cases e with
        | zero =>
          simp only [List.getElem?_cons_zero, Option.some.injEq] at hr
          subst hr
          simpa using hm
        | succ e2 =>
          exact hall e2 r (by simpa using hr)
    · right
      refine ⟨d + 1, q, by simpa using hget, hmark, by omega, ?_⟩
      intro e r hgt hr
      cases e with
      | zero => omega
      | succ e2 =>
        exact hlater e2 r (by omega) (by simpa using hr)

theorem lastMarkedAux_eq_none (ps : List APanel) :
    ∀ (i : Nat) (acc : Option Nat),
      Accordion.lastMarkedAux ps i acc = none →
      acc = none ∧ ∀ (e : Nat) (q : APanel), ps[e]? = some q → q.initMarker = false := by
  induction ps with
  | nil =>
    intro i acc h
    refine ⟨h, ?_⟩
    intro e q hq
    simp at hq
  | cons p ps ih =>
    intro i acc h
    rw [Accordion.lastMarkedAux] at h
    obtain ⟨hacc, hall⟩ := ih (i + 1) (if p.initMarker then some i else acc) h
    by_cases hm : p.initMarker = true
    · simp [hm] at hacc
    · refine ⟨by simpa [hm] using hacc, ?_⟩
      intro e r hr
      cases e with
      | zero =>
        simp only [List.getElem?_cons_zero, Option.some.injEq] at hr
        subst hr
        simpa using hm
      | succ e2 =>
        exact hall e2 r (by simpa using hr)

/-- C6 counterexample: with two `data-accordion-panel-init` panels
(both authored without `hidden`), the `Caught` warning is logged, but
no "first panel or no panel" fallback results: init throws a TypeError
at the undefined static `Component.bindMethodToDOMElement` after its
`forEach` already ran, leaving BOTH marked panels without `hidden` —
the later-listed marked panel (index 1) is exactly as open as the
first, so it is not the case that the first such panel or no panel
ends up open. -/
theorem accordion_both_marked_panels_stay_open :
    ((accordionTwoInitMarkup.panels[0]?).map APanel.initMarker = some true ∧
     (accordionTwoInitMarkup.panels[1]?).map APanel.initMarker = some true) ∧
    "Caught" ∈ (Accordion.init accordionTwoInitMarkup).warnings ∧
    (Accordion.init accordionTwoInitMarkup).errored = true ∧
    ((Accordion.init accordionTwoInitMarkup).state.panels[0]?).map
      APanel.hidden = some false ∧
    ((Accordion.init accordionTwoInitMarkup).state.panels[1]?).map
      APanel.hidden = some false := by
  decide

theorem range_foldl_inv {β : Type} (f : β → Nat → β) (P : Nat → β → Prop) :
    ∀ (n : Nat) (b : β), P 0 b →
      (∀ (i : Nat) (acc : β), i < n → P i acc → P (i + 1) (f acc i)) →
      P n ((List.range n).foldl f b) := by
  intro n
  induction n with
  | zero =>
    intro b h0 _
    simpa using h0
  | succ n ih =>
    intro b h0 hs
    rw [List.range_succ, List.foldl_append]
    exact hs n _ (Nat.lt_succ_self n)
      (ih b h0 (fun i acc hi hp => hs i acc (Nat.lt_succ_of_lt hi) hp))



/-- `_openOnInit` can never dispatch an `accordionOpened` event: every
`this.open(panel)` call inside it throws at the undefined static
`Component.dispatchCustomEvent` before dispatching, and the hide
iterations dispatch nothing. -/
theorem openOnInitRun_events_nil (env : Env) (s : AccordionState) :
    (Accordion.openOnInitRun env s).events = [] := by
  unfold Accordion.openOnInitRun
  split
  · refine range_foldl_inv _
      (fun (i : Nat) (acc : ARunResult) => acc.events = []) _ _ rfl ?_
    intro i acc hi hP
    dsimp only
    split
    · exact hP
    · rw [accordion_openP_eq]
      simp [hP]
  · refine range_foldl_inv _
      (fun (i : Nat) (acc : ARunResult) => acc.events = []) _ _ rfl ?_
    intro i acc hi hP
    dsimp only
    split
    · exact hP
    · split
      · rw [accordion_openP_eq]
        simp [hP]
      · cases Accordion.hideStep acc.state i with
        | mk s1 err => exact hP

/-- C6 amended: with more than one `data-accordion-panel-init` panel the
`Caught` warning is logged and `openOnInit` records the LAST marked
panel (always a marked index with no marked panel listed after it, and
set whenever any marked panel exists) — but init then always throws a
TypeError at the undefined static `Component.bindMethodToDOMElement`,
so initialization aborts: every unmarked panel is left hidden, every
marked panel keeps its authored `hidden` attribute, and no panel is
ever opened via `open()` — `_openOnInit` never runs, and even run
directly it could dispatch no `accordionOpened` event. -/
theorem accordion_last_init_marker_wins (m : AccordionMarkup) (env : Env) :
    (1 < (m.panels.filter (fun p => p.initMarker)).length →
       "Caught" ∈ (Accordion.init m).warnings) ∧
    (Accordion.init m).errored = true ∧
    (∀ (k : Nat), (Accordion.init m).state.openOnInit = some k →
       ∃ p, m.panels[k]? = some p ∧ p.initMarker = true ∧
         ∀ (j : Nat) (q : APanel), k < j → m.panels[j]? = some q →
           q.initMarker = false) ∧
    ((∃ (d : Nat) (p : APanel), m.panels[d]? = some p ∧ p.initMarker = true) →
       (Accordion.init m).state.openOnInit ≠ none) ∧
    (∀ (j : Nat) (p : APanel), m.panels[j]? = some p →
       (Accordion.init m).state.panels[j]? =
         some (if p.initMarker then p else { p with hidden := true })) ∧
    (Accordion.openOnInitRun env (Accordion.init m).state).events = [] := by
  refine ⟨?_, rfl, ?_, ?_, ?_, openOnInitRun_events_nil env _⟩
  · intro h
    rw [accordion_init_eq]
    dsimp only
    rw [if_pos h]
    simp
  · intro k hk2
    have hk3 : Accordion.lastMarkedAux m.panels 0 none = some k := hk2
    rcases lastMarkedAux_eq_some m.panels 0 none k hk3 with
      ⟨hacc, _⟩ | ⟨d, p, hget, hmark, hkd, hlater⟩
    · simp at hacc
    · have hkd2 : k = d := by omega
      subst hkd2
      exact ⟨p, hget, hmark, fun j q hlt hq => hlater j q (by omega) hq⟩
  · rintro ⟨d, p, hget, hmark⟩ hnone
    have hnone2 : Accordion.lastMarkedAux m.panels 0 none = none := hnone
    obtain ⟨_, hall⟩ := lastMarkedAux_eq_none m.panels 0 none hnone2
    rw [hall d p hget] at hmark
    exact Bool.false_ne_true hmark
  · intro j p hp
    have hpanels : (Accordion.init m).state.panels =
        m.panels.map (fun p => if p.initMarker then p
          else { p with hidden := true }) := rfl
    rw [hpanels, List.getElem?_map, hp]
    rfl

/-- C6 witness: the amended theorem evaluated on the two-marked-panel
markup. -/
theorem accordion_last_init_marker_wins_witness :
    "Caught" ∈ (Accordion.init accordionTwoInitMarkup).warnings ∧
    (Accordion.init accordionTwoInitMarkup).state.panels[1]? =
      some ⟨"two", true, false⟩ :=
  have h := accordion_last_init_marker_wins accordionTwoInitMarkup envAllow
  ⟨h.1 (by decide), h.2.2.2.2.1 1 ⟨"two", true, false⟩ rfl⟩

end Rivet
